import Mathlib

/-!
Verification development for the FCPS Auditor review-queue engine
(`mobile_audit_app.py`). The definitions below are a shallow embedding of
the data model and operations of the program: database rows become a `Record`
structure, SQL statements become functions on `List Record`, Streamlit
session state becomes an explicit `SessionState` record, and the oracle
call becomes a function on an explicit outcome (success or raised
exception). Theorems at the end settle the specification claims.
-/

namespace QBank

/-- One entry of the `options` array inside `question_json`:
a `{key, text}` object. -/
structure OptionItem where
  key : String
  text : String
deriving DecidableEq, Repr

/-- The `verification_status` column; the data model restricts it to the
enum `pending | verified`, with SQL NULL modelled as `Option.none` at the
row level. -/
inductive VerifStatus where
  | pending
  | verified
deriving DecidableEq, Repr

/-- One row of the `question_bank` table, joined (LEFT JOIN) with the
`concept_cards.fact_text` column (`card_fact`, NULL when the join misses).
`pairing_group_id` is the column written by the (spec-described)
PairingResolver. -/
structure Record where
  question_id : Nat
  variant_group_id : Nat
  stem : String
  options : List OptionItem
  correct_key : String
  explanation : String
  variant_type : String
  role : String
  status : String
  verification_status : Option VerifStatus
  chapter_name : String
  card_fact : Option String
  pairing_group_id : Option Nat
deriving DecidableEq, Repr

/-- The `QuestionData` dataclass materialized by `fetch_variant_group`;
the expression `q_verif or :p` (with `:p` the text pending) coalesces
NULL to pending, so the field is a plain `VerifStatus` here. -/
structure QuestionData where
  question_id : Nat
  stem : String
  options : List OptionItem
  correct_key : String
  explanation : String
  variant_type : String
  role : String
  status : String
  verification_status : VerifStatus
  chapter_name : String
deriving DecidableEq, Repr

/-- The `QuestionAudit` pydantic model: one oracle evaluation entry. -/
structure QuestionAudit where
  question_id : Nat
  status : String
  feedback : Option String
deriving DecidableEq, Repr

/-- The `AuditResponse` pydantic model. It has exactly three fields:
`global_verdict`, `global_summary`, `evaluations` (there is no
`detected_pairs` field in the source schema). -/
structure AuditResponse where
  global_verdict : String
  global_summary : Option String
  evaluations : List QuestionAudit
deriving DecidableEq, Repr

/-! ## Group selection (`fetch_variant_group`, selection query)

The query keeps rows with
`(verification_status != :v OR verification_status IS NULL)` with `:v`
the text verified,
optionally `chapter_name = :chap` (only when the filter is not the
sentinel `"All Chapters"`), optionally `variant_group_id != ALL(:skip_list)`
(the condition is omitted when the skip list is empty, which is equivalent
to testing against the empty list), then takes one arbitrary matching
group id (`LIMIT 1`, no ORDER BY); we resolve the arbitrary choice as the
first matching row in table order. -/

/-- Condition `verification_status != :v OR verification_status IS NULL`
where `:v` is the text verified. -/
def notVerified (vs : Option VerifStatus) : Bool :=
  match vs with
  | some VerifStatus.verified => false
  | _ => true

/-- The WHERE clause of the group-selection query, per row. -/
def recordEligible (chapterFilter : String) (skipped : List Nat) (r : Record) : Bool :=
  notVerified r.verification_status
    && (chapterFilter == "All Chapters" || r.chapter_name == chapterFilter)
    && !(skipped.contains r.variant_group_id)

/-- Query `SELECT DISTINCT variant_group_id FROM question_bank WHERE ...
LIMIT 1`: the group id of the first eligible row, if any. -/
def selectGroup (db : List Record) (skipped : List Nat) (chapterFilter : String) : Option Nat :=
  (db.find? (recordEligible chapterFilter skipped)).map (fun r => r.variant_group_id)

/-! ## Group loading (`fetch_variant_group`, questions query) -/

/-- Rows of the selected group, `ORDER BY q.question_id ASC`. -/
def fetchGroupRows (db : List Record) (gid : Nat) : List Record :=
  (db.filter (fun r => r.variant_group_id == gid)).mergeSort
    (fun a b => decide (a.question_id ≤ b.question_id))

/-- Computation of `shared_fact_text`: the variable is initialized to the
placeholder text (No reference fact found.) and, whenever the row list is
non-empty, overwritten with `rows[0][9]` (the `fact_text` of the first
row, which may be NULL). -/
def sharedFactText (rows : List Record) : Option String :=
  match rows with
  | [] => some "No reference fact found."
  | r :: _ => r.card_fact

/-- Construction of one `QuestionData` from a fetched row, coalescing a
NULL verification status to pending. -/
def toQuestionData (r : Record) : QuestionData :=
  { question_id := r.question_id
    stem := r.stem
    options := r.options
    correct_key := r.correct_key
    explanation := r.explanation
    variant_type := r.variant_type
    role := r.role
    status := r.status
    verification_status := r.verification_status.getD VerifStatus.pending
    chapter_name := r.chapter_name }

/-- Embedding of `fetch_variant_group(skipped_ids, chapter_filter)`: returns
`(None, [], None)` when no group is eligible, otherwise the chosen group
id, its questions in ascending id order, and the shared fact text. -/
def fetch_variant_group (db : List Record) (skipped : List Nat)
    (chapterFilter : String) : Option Nat × List QuestionData × Option String :=
  match selectGroup db skipped chapterFilter with
  | none => (none, [], none)
  | some gid =>
      let rows := fetchGroupRows db gid
      (some gid, rows.map toQuestionData, sharedFactText rows)

/-! ## Write statements -/

/-- Statement `UPDATE question_bank SET question_json=:qj, explanation=:ex
WHERE question_id=:qid` where `question_json` carries the stem, the
options and the correct key. -/
def save_edit (qid : Nat) (newStem : String) (newOptions : List OptionItem)
    (newKey : String) (newExpl : String) (db : List Record) : List Record :=
  db.map (fun r =>
    if r.question_id == qid then
      { r with stem := newStem, options := newOptions,
               correct_key := newKey, explanation := newExpl }
    else r)

/-- Statement `UPDATE question_bank SET status=:s WHERE question_id=:qid`
(activation toggle). -/
def update_status_single (qid : Nat) (newStatus : String) (db : List Record) : List Record :=
  db.map (fun r => if r.question_id == qid then { r with status := newStatus } else r)

/-- Statement `UPDATE question_bank SET verification_status=:v WHERE
variant_group_id=:gid` with `:v` the text verified (`mark_group_verified`). -/
def mark_group_verified (gid : Nat) (db : List Record) : List Record :=
  db.map (fun r =>
    if r.variant_group_id == gid then
      { r with verification_status := some VerifStatus.verified }
    else r)

/-! ## Edit-form correct-key index

Edit mode runs `list.index` of `q.correct_key` over the fixed choice
list A..E; Python `list.index` raises `ValueError` when the element is missing, modelled
here as `Option.none`. -/

/-- Python `list.index`: position of the first occurrence, `none` models
the raised `ValueError`. -/
def pyListIndex (l : List String) (x : String) : Option Nat :=
  match l with
  | [] => none
  | h :: t => if h == x then some 0 else (pyListIndex t x).map (fun i => i + 1)

/-- The fixed choice list of the correct-option selectbox. -/
def keyChoices : List String := ["A", "B", "C", "D", "E"]

/-- The `index=` argument computed when rendering the edit form. -/
def editKeyIndex (correctKey : String) : Option Nat :=
  pyListIndex keyChoices correctKey

/-! ## Session state and action callbacks -/

/-- The Streamlit session state consumed by the engine: the persisted
table (`db`), the session-only skip list, the chapter filter, the cached
`group_data`, the cached `ai_result`, and the `current_group_id` saved
for the callbacks. -/
structure SessionState where
  db : List Record
  skipped_groups : List Nat
  selected_chapter : String
  group_data : Option (Option Nat × List QuestionData × Option String)
  ai_result : Option AuditResponse
  current_group_id : Option Nat
deriving DecidableEq, Repr

/-- Callback `verify_group_callback`: reads `current_group_id`; the Python guard
`if gid:` skips both `None` and the falsy integer `0`. Otherwise it runs
the verified UPDATE on the group and resets `group_data` and
`ai_result`. -/
def verify_group_callback (s : SessionState) : SessionState :=
  match s.current_group_id with
  | none => s
  | some gid =>
      if gid == 0 then s
      else
        { s with db := mark_group_verified gid s.db,
                 group_data := none, ai_result := none }

/-- Callback `skip_group_callback`: appends the current group id to
`skipped_groups` and resets `group_data` and `ai_result`; it issues no
database statement. The guard `if gid:` is as in
`verify_group_callback`. -/
def skip_group_callback (s : SessionState) : SessionState :=
  match s.current_group_id with
  | none => s
  | some gid =>
      if gid == 0 then s
      else
        { s with skipped_groups := s.skipped_groups ++ [gid],
                 group_data := none, ai_result := none }

/-- The chapter-filter change branch of the main UI: when the selectbox
value differs from the stored chapter, store it, reset the skip list to
`[]` and clear `group_data` and `ai_result`. -/
def chapter_filter_change (s : SessionState) (selected : String) : SessionState :=
  if selected == s.selected_chapter then s
  else
    { s with selected_chapter := selected, skipped_groups := [],
             group_data := none, ai_result := none }

/-! ## Oracle prompt construction (lazy AI injection) -/

/-- Computation of `opts_str`: the option entries rendered as key:text,
joined with a comma and a space. -/
def optsStr (options : List OptionItem) : String :=
  String.intercalate ", " (options.map (fun o => o.key ++ ":" ++ o.text))

/-- The per-question section appended to the prompt. -/
def questionBlock (q : QuestionData) : String :=
  "--- QUESTION ID " ++ toString q.question_id ++ " ---\n"
    ++ "Stem: " ++ q.stem ++ "\nOptions: " ++ optsStr q.options
    ++ "\nKey: " ++ q.correct_key ++ "\nExpl: " ++ q.explanation ++ "\n\n"

/-- Python `f"{v}"` on a string-or-None value: `None` renders as the
text `"None"`. -/
def pyStr (v : Option String) : String :=
  match v with
  | some s => s
  | none => "None"

/-- The fixed instruction block appended to every prompt (the triple-quoted
string literal in the source, verbatim, including its indentation). -/
def instructionBlock : String :=
  "\n        Check for: \n        1. Factually incorrect medical statements.\n        2. Mismatch between Explanation and Key.\n        3. Logic errors.\n\n        OUTPUT JSON FORMAT:\n        \x7b\n            \"global_verdict\": \"PASS\" or \"FAIL\",\n            \"global_summary\": \"Short note if FAIL, null if PASS\",\n            \"evaluations\": [\n                \x7b \"question_id\": 123, \"status\": \"FAIL\", \"feedback\": \"Brief feedback.\" \x7d,\n                \x7b \"question_id\": 456, \"status\": \"PASS\", \"feedback\": null \x7d\n            ]\n        \x7d\n        "

/-- The full prompt sent to the oracle for one cluster. -/
def buildPrompt (sharedFact : Option String) (questions : List QuestionData) : String :=
  "Audit this medical question set (FCPS Part 1). Focus ONLY on factual accuracy.\n\n"
    ++ "Reference Fact (Context): " ++ pyStr sharedFact ++ "\n\n"
    ++ String.join (questions.map questionBlock)
    ++ instructionBlock

/-- Test `listStartsWith pre l`: `pre` is an initial segment of `l`. -/
def listStartsWith : List Char → List Char → Bool
  | [], _ => true
  | _ :: _, [] => false
  | a :: as, b :: bs => a == b && listStartsWith as bs

/-- Test `listHasSub needle hay`: `needle` occurs contiguously in `hay`. -/
def listHasSub (needle : List Char) : List Char → Bool
  | [] => needle.isEmpty
  | c :: rest => listStartsWith needle (c :: rest) || listHasSub needle rest

/-- Substring occurrence on strings. -/
def strHasSub (hay needle : String) : Bool :=
  listHasSub needle.data hay.data

/-- The instruction block asks for factual-error detection. -/
def mentionsFactualErrors : Bool :=
  strHasSub instructionBlock "Factually incorrect"

/-- The instruction block asks for explanation/key mismatch detection. -/
def mentionsKeyMismatch : Bool :=
  strHasSub instructionBlock "Mismatch between Explanation and Key"

/-- The instruction block asks to flag more than one possibly-correct
option (any of the natural phrasings). -/
def mentionsMultipleCorrect : Bool :=
  strHasSub instructionBlock "more than one"
    || strHasSub instructionBlock "could be correct"
    || strHasSub instructionBlock "multiple correct"

/-- The instruction block asks for Primary/Backup pairing detection (any
occurrence of the pairing vocabulary at all). -/
def mentionsPairing : Bool :=
  strHasSub instructionBlock "pair"
    || strHasSub instructionBlock "Pair"
    || strHasSub instructionBlock "Primary"
    || strHasSub instructionBlock "Backup"
    || strHasSub instructionBlock "Clone"

/-! ## Oracle call and failure handling -/

/-- Outcome of `client.models.generate_content(...)` followed by
`response.parsed`: either a schema-validated `AuditResponse`, or a raised
exception (transport failure or schema-validation failure), carried as
its message string. -/
inductive OracleOutcome where
  | ok (res : AuditResponse)
  | fail (msg : String)
deriving DecidableEq, Repr

/-- Observable result of one run of the lazy AI audit section: the value
stored in `st.session_state["ai_result"]`, the `st.error` message if any,
and the final status label. -/
structure AiAuditOutcome where
  ai_result : Option AuditResponse
  error_message : Option String
  status_label : String
deriving DecidableEq, Repr

/-- Embedding of the try/except around the oracle call: on success the parsed
response is cached in `ai_result`; on an exception the handler shows
`f"AI Error: {e}"` and leaves `ai_result` unset (it was `None`, or the
audit would not have run). No exception escapes the handler. -/
def runAiAudit : OracleOutcome → AiAuditOutcome
  | OracleOutcome.ok res =>
      { ai_result := some res, error_message := none,
        status_label := "✅ AI Audit Complete" }
  | OracleOutcome.fail e =>
      { ai_result := none, error_message := some ("AI Error: " ++ e),
        status_label := "⚠️ AI Audit Failed" }

/-- The reconciliation loop over a cached result: feedback is injected
only for evaluations with `status == "FAIL"` whose `question_id` is a key
of `question_feedback_map`, i.e. the id of a question in the loaded
cluster; all other evaluations are skipped silently. -/
def injectedFeedback (clusterIds : List Nat) (res : AuditResponse) : List QuestionAudit :=
  res.evaluations.filter
    (fun ev => ev.status == "FAIL" && clusterIds.contains ev.question_id)

/-! ## PairingResolver (modelled from the spec) -/

/-- One oracle-detected Primary/Backup pair (`detected_pairs` entry). -/
structure DetectedPair where
  primary_id : Nat
  backup_id : Nat
deriving DecidableEq, Repr

/-- Modelled from the spec: the PairingResolver component is described in
the specification (§4.4) but absent from the source file; fresh id
generation is modelled as consecutive ids from a base counter. -/
def assignIds (base : Nat) : List DetectedPair → List (Nat × DetectedPair)
  | [] => []
  | p :: ps => (base, p) :: assignIds (base + 1) ps

/-- Whether `q` is one of the two record ids named by the pair. -/
def pairMentions (p : DetectedPair) (q : Nat) : Bool :=
  q == p.primary_id || q == p.backup_id

/-- Modelled from the spec: one pairing write sets the generated
`pairing_group_id` on both the named primary and backup records. -/
def applyAssign (gp : Nat × DetectedPair) (r : Record) : Record :=
  if pairMentions gp.2 r.question_id then
    { r with pairing_group_id := some gp.1 }
  else r

/-- Sequential application of the writes of one audit cycle to one
record; later writes overwrite earlier ones for the same record. -/
def applyAssigns (assigns : List (Nat × DetectedPair)) (r : Record) : Record :=
  match assigns with
  | [] => r
  | gp :: rest => applyAssigns rest (applyAssign gp r)

/-- Modelled from the spec: a single pairing write over the table. -/
def setPairId (g : Nat) (p : DetectedPair) (db : List Record) : List Record :=
  db.map (applyAssign (g, p))

/-- Modelled from the spec: `PairingResolver.apply(detectedPairs)` — for
each accepted pair, generate a fresh `pairing_group_id` and set it on
both named records, writes attempted in sequence. -/
def pairingResolverApply (base : Nat) (pairs : List DetectedPair)
    (db : List Record) : List Record :=
  db.map (applyAssigns (assignIds base pairs))

/-- All record ids named by a detected-pairs list, in order. -/
def mentionedIds : List DetectedPair → List Nat
  | [] => []
  | p :: ps => p.primary_id :: p.backup_id :: mentionedIds ps

/-! ## The database-mutating operations of the engine, as one type -/

/-- Every operation of this engine that touches the persisted table
(`skip` touches only session state and is the identity on the table). -/
inductive EngineOp where
  | saveEdit (qid : Nat) (newStem : String) (newOptions : List OptionItem)
      (newKey : String) (newExpl : String)
  | toggleStatus (qid : Nat) (newStatus : String)
  | skip (gid : Nat)
  | verify (gid : Nat)
  | pairWrite (g : Nat) (p : DetectedPair)

/-- Effect of each operation on the persisted table. -/
def applyOpDb : EngineOp → List Record → List Record
  | EngineOp.saveEdit qid st opts key expl, db => save_edit qid st opts key expl db
  | EngineOp.toggleStatus qid s, db => update_status_single qid s db
  | EngineOp.skip _, db => db
  | EngineOp.verify gid, db => mark_group_verified gid db
  | EngineOp.pairWrite g p, db => setPairId g p db

/-! ## Concrete fixtures used by counterexamples and witnesses -/

/-- A pending record of group 7 in chapter Ch1, with no attached fact. -/
def exPendingRec : Record :=
  { question_id := 1, variant_group_id := 7, stem := "s", options := []
    correct_key := "A", explanation := "e", variant_type := "MCQ"
    role := "Primary", status := "active"
    verification_status := some VerifStatus.pending
    chapter_name := "Ch1", card_fact := none, pairing_group_id := none }

/-- A verified record of the same group. -/
def exVerifiedRec : Record :=
  { exPendingRec with question_id := 2,
                      verification_status := some VerifStatus.verified }

/-- The verified record after an activation toggle to inactive. -/
def exToggledRec : Record :=
  { exVerifiedRec with status := "inactive" }

/-- The pending record after its group is verified. -/
def exVerifiedRecOfGroup : Record :=
  { exPendingRec with verification_status := some VerifStatus.verified }

/-- A session reviewing group 7 with an empty skip list. -/
def exSession : SessionState :=
  { db := [exPendingRec], skipped_groups := [],
    selected_chapter := "All Chapters", group_data := none,
    ai_result := none, current_group_id := some 7 }

/-- A FAIL evaluation for question 2. -/
def exEval2 : QuestionAudit := { question_id := 2, status := "FAIL", feedback := some "bad" }

/-- A FAIL evaluation for question 3. -/
def exEval3 : QuestionAudit := { question_id := 3, status := "FAIL", feedback := some "bad" }

/-- A FAIL evaluation for question 4 (an id outside the cluster). -/
def exEval4 : QuestionAudit := { question_id := 4, status := "FAIL", feedback := some "bad" }

/-- An oracle response with evaluations for ids 2, 3 and 4. -/
def exAuditRes : AuditResponse :=
  { global_verdict := "FAIL", global_summary := some "issues",
    evaluations := [exEval2, exEval3, exEval4] }

/-- Two detected pairs naming four distinct records. -/
def exPairs : List DetectedPair :=
  [{ primary_id := 1, backup_id := 2 }, { primary_id := 3, backup_id := 4 }]

/-- The pending record after the first pairing write of `exPairs` with
base id 100. -/
def exPairedRec : Record :=
  { exPendingRec with pairing_group_id := some 100 }

set_option maxRecDepth 10000

/-! ## Claim theorems -/

/-- C1 counterexample: on a raised oracle exception the audit step leaves
the cached result unset — it does not return an ERROR verdict object (and
the response schema has no detected-pairs field at all), contradicting
the claim at the concrete failing message boom. -/
theorem claim_C1_counterexample :
    (runAiAudit (OracleOutcome.fail "boom")).ai_result = none ∧
    (runAiAudit (OracleOutcome.fail "boom")).ai_result ≠
      some { global_verdict := "ERROR", global_summary := some "boom",
             evaluations := [] } ∧
    (runAiAudit (OracleOutcome.fail "boom")).error_message = some "AI Error: boom" := by
  refine ⟨rfl, ?_, rfl⟩
  intro h
  cases h

/-- C1 amended: if the oracle call raises (transport failure or schema
validation failure), the audit step never propagates the exception: it
returns normally with the cached result unset, a diagnostic error message
and a failed status label; on success it caches the parsed response. -/
theorem claim_C1_failure_containment :
    ∀ msg : String,
      runAiAudit (OracleOutcome.fail msg) =
        { ai_result := none, error_message := some ("AI Error: " ++ msg),
          status_label := "⚠️ AI Audit Failed" } ∧
      ∀ res : AuditResponse,
        runAiAudit (OracleOutcome.ok res) =
          { ai_result := some res, error_message := none,
            status_label := "✅ AI Audit Complete" } :=
  fun _ => ⟨rfl, fun _ => rfl⟩

/-- C2 counterexample: the fixed instruction block requests neither the
detection of more than one possibly-correct option nor any pairing
detection — none of the pairing vocabulary (pair, Primary, Backup,
Clone) occurs in it. -/
theorem claim_C2_counterexample :
    mentionsMultipleCorrect = false ∧ mentionsPairing = false := by
  decide

/-- C2 amended: the fixed instruction block requires exactly three
checks — factually incorrect statements, mismatch between explanation
and key, and logic errors; it requests neither multiple-correct-option
detection nor Primary/Backup pairing detection. -/
theorem claim_C2_instruction_block :
    mentionsFactualErrors = true ∧
    mentionsKeyMismatch = true ∧
    strHasSub instructionBlock "Logic errors" = true ∧
    mentionsMultipleCorrect = false ∧
    mentionsPairing = false := by
  decide

/-- C4 counterexample: a non-empty group whose rows carry no reference
text loads with a NULL shared fact, not the fixed placeholder. -/
theorem claim_C4_counterexample :
    exPendingRec.card_fact = none ∧
    sharedFactText [exPendingRec] = none ∧
    sharedFactText [exPendingRec] ≠ some "No reference fact found." := by
  decide

/-- C4 amended: for every non-empty loaded group the shared fact is the
reference text of the first row, even when that text is NULL; the fixed
placeholder is produced only for an empty row list, and the load never
fails for a missing fact. -/
theorem claim_C4_shared_fact (rows : List Record) (r : Record) (rest : List Record)
    (h : rows = r :: rest) :
    sharedFactText rows = r.card_fact ∧
    sharedFactText [] = some "No reference fact found." := by
  subst h
  exact ⟨rfl, rfl⟩

/-- C4 witness: the amended claim evaluated on the one-row group. -/
theorem claim_C4_witness :
    sharedFactText [exPendingRec] = exPendingRec.card_fact ∧
    sharedFactText [] = some "No reference fact found." :=
  claim_C4_shared_fact [exPendingRec] exPendingRec [] rfl

/-- Helper: Python list.index finds an index for every member. -/
theorem pyListIndex_mem_some :
    ∀ (l : List String) (x : String), x ∈ l → ∃ i, pyListIndex l x = some i := by
  intro l
  induction l with
  | nil => intro x hx; cases hx
  | cons h t ih =>
    intro x hx
    by_cases hhx : (h == x) = true
    · exact ⟨0, by simp [pyListIndex, hhx]⟩
    · have hxt : x ∈ t := by
        cases hx with
        | head => exact absurd (by simp) hhx
        | tail _ hmem => exact hmem
      obtain ⟨i, hi⟩ := ih x hxt
      exact ⟨i + 1, by simp [pyListIndex, hhx, hi]⟩

/-- Helper: Python list.index raises (returns none) for non-members. -/
theorem pyListIndex_not_mem_none :
    ∀ (l : List String) (x : String), x ∉ l → pyListIndex l x = none := by
  intro l
  induction l with
  | nil => intro x _; rfl
  | cons h t ih =>
    intro x hx
    have hne : (h == x) = false := by
      rw [beq_eq_false_iff_ne]
      intro he
      exact hx (he ▸ List.mem_cons_self h t)
    have ht : pyListIndex t x = none :=
      ih x (fun hxt => hx (List.mem_cons_of_mem h hxt))
    simp [pyListIndex, hne, ht]

/-- C10: rendering the edit form computes a selectbox index exactly when
the correct key is one of A..E; for any other key the index computation
models the raised ValueError (none) instead of displaying the form. -/
theorem claim_C10_edit_key_index (correctKey : String) :
    (correctKey ∈ keyChoices → ∃ i, editKeyIndex correctKey = some i) ∧
    (correctKey ∉ keyChoices → editKeyIndex correctKey = none) :=
  ⟨fun h => pyListIndex_mem_some keyChoices correctKey h,
   fun h => pyListIndex_not_mem_none keyChoices correctKey h⟩

/-- C10 witness: key B renders (index 1), key F raises. -/
theorem claim_C10_witness :
    (∃ i, editKeyIndex "B" = some i) ∧ editKeyIndex "F" = none :=
  ⟨(claim_C10_edit_key_index "B").1 (by decide),
   (claim_C10_edit_key_index "F").2 (by decide)⟩

/-- Helper: the SQL eligibility condition means pending or unset. -/
theorem notVerified_cases (vs : Option VerifStatus) (h : notVerified vs = true) :
    vs = some VerifStatus.pending ∨ vs = none := by
  cases vs with
  | none => exact Or.inr rfl
  | some st =>
    cases st with
    | pending => exact Or.inl rfl
    | verified => exact absurd h (by decide)

/-- C5: a returned group id is justified by a row that is pending or
unset, matches the chapter filter, and is not skipped; and when every
record is verified the selection returns none (a normal result, not an
error). -/
theorem claim_C5_group_selection (db : List Record) (skipped : List Nat)
    (chapterFilter : String) :
    (∀ g, selectGroup db skipped chapterFilter = some g →
      ∃ r, r ∈ db ∧ r.variant_group_id = g ∧
        (r.verification_status = some VerifStatus.pending ∨
          r.verification_status = none) ∧
        (chapterFilter = "All Chapters" ∨ r.chapter_name = chapterFilter) ∧
        g ∉ skipped) ∧
    ((∀ r ∈ db, r.verification_status = some VerifStatus.verified) →
      selectGroup db skipped chapterFilter = none) := by
  constructor
  · intro g hg
    unfold selectGroup at hg
    cases hfind : List.find? (recordEligible chapterFilter skipped) db with
    | none => rw [hfind] at hg; cases hg
    | some r =>
      rw [hfind] at hg
      have hgid : r.variant_group_id = g := by simpa using hg
      have hmem : r ∈ db := List.mem_of_find?_eq_some hfind
      have hpred : recordEligible chapterFilter skipped r = true :=
        List.find?_some hfind
      unfold recordEligible at hpred
      rw [Bool.and_eq_true, Bool.and_eq_true] at hpred
      obtain ⟨⟨hnv, hchap⟩, hskip⟩ := hpred
      refine ⟨r, hmem, hgid, notVerified_cases r.verification_status hnv, ?_, ?_⟩
      · rcases (Bool.or_eq_true _ _).mp hchap with h | h
        · exact Or.inl (beq_iff_eq.mp h)
        · exact Or.inr (beq_iff_eq.mp h)
      · intro hin
        rw [Bool.not_eq_true'] at hskip
        rw [← hgid] at hin
        have hc : skipped.contains r.variant_group_id = true := List.elem_iff.mpr hin
        rw [hskip] at hc
        exact Bool.false_ne_true hc
  · intro hall
    have hnone : List.find? (recordEligible chapterFilter skipped) db = none := by
      apply List.find?_eq_none.mpr
      intro r hr hpred
      unfold recordEligible at hpred
      rw [Bool.and_eq_true, Bool.and_eq_true] at hpred
      have hnv := hpred.1.1
      rw [hall r hr] at hnv
      exact Bool.false_ne_true hnv
    simp [selectGroup, hnone]

/-- C5 witness: the theorem evaluated on a one-row pending database and
on a one-row verified database. -/
theorem claim_C5_witness :
    (∃ r, r ∈ [exPendingRec] ∧ r.variant_group_id = 7 ∧
      (r.verification_status = some VerifStatus.pending ∨
        r.verification_status = none) ∧
      ("All Chapters" = "All Chapters" ∨ r.chapter_name = "All Chapters") ∧
      (7 : Nat) ∉ ([] : List Nat)) ∧
    selectGroup [exVerifiedRec] [] "All Chapters" = none :=
  ⟨(claim_C5_group_selection [exPendingRec] [] "All Chapters").1 7 (by decide),
   (claim_C5_group_selection [exVerifiedRec] [] "All Chapters").2 (by
     intro r hr
     rw [List.mem_singleton] at hr
     subst hr
     decide)⟩

/-- C6: after the verify callback fires for the current group, every
record of that group carries verified status, and both the cached group
data and the cached AI verdict are cleared. -/
theorem claim_C6_verify_group (s : SessionState) (gid : Nat)
    (hcur : s.current_group_id = some gid) (hgid : gid ≠ 0) :
    (∀ r ∈ (verify_group_callback s).db, r.variant_group_id = gid →
      r.verification_status = some VerifStatus.verified) ∧
    (verify_group_callback s).group_data = none ∧
    (verify_group_callback s).ai_result = none := by
  have hne : (gid == 0) = false := beq_eq_false_iff_ne.mpr hgid
  have hs : verify_group_callback s =
      { s with db := mark_group_verified gid s.db,
               group_data := none, ai_result := none } := by
    unfold verify_group_callback
    rw [hcur]
    simp [hne]
  rw [hs]
  refine ⟨?_, rfl, rfl⟩
  intro r hr hrg
  unfold mark_group_verified at hr
  rw [List.mem_map] at hr
  obtain ⟨r0, _, hmap⟩ := hr
  by_cases h : (r0.variant_group_id == gid) = true
  · rw [if_pos h] at hmap
    rw [← hmap]
  · rw [if_neg h] at hmap
    subst hmap
    exact absurd (beq_iff_eq.mpr hrg) h

/-- C6 witness: verifying group 7 in the concrete session marks the
mapped record verified and clears both caches. -/
theorem claim_C6_witness :
    exVerifiedRecOfGroup.verification_status = some VerifStatus.verified ∧
    (verify_group_callback exSession).group_data = none ∧
    (verify_group_callback exSession).ai_result = none :=
  ⟨(claim_C6_verify_group exSession 7 rfl (by decide)).1
      exVerifiedRecOfGroup (by decide) (by decide),
   (claim_C6_verify_group exSession 7 rfl (by decide)).2.1,
   (claim_C6_verify_group exSession 7 rfl (by decide)).2.2⟩

/-- C7: every table operation of the engine (edit save, activation
toggle, skip, verify, pairing write) preserves verified status at every
row position. -/
theorem claim_C7_verification_monotonic (op : EngineOp) (db : List Record)
    (i : Nat) (r rNew : Record)
    (hr : db[i]? = some r) (hrNew : (applyOpDb op db)[i]? = some rNew)
    (hv : r.verification_status = some VerifStatus.verified) :
    rNew.verification_status = some VerifStatus.verified := by
  cases op with
  | saveEdit qid st opts key expl =>
    simp only [applyOpDb, save_edit, List.getElem?_map, hr, Option.map_some',
      Option.some.injEq] at hrNew
    rw [← hrNew]
    by_cases h : (r.question_id == qid) = true
    · rw [if_pos h]; exact hv
    · rw [if_neg h]; exact hv
  | toggleStatus qid s =>
    simp only [applyOpDb, update_status_single, List.getElem?_map, hr,
      Option.map_some', Option.some.injEq] at hrNew
    rw [← hrNew]
    by_cases h : (r.question_id == qid) = true
    · rw [if_pos h]; exact hv
    · rw [if_neg h]; exact hv
  | skip gid =>
    simp only [applyOpDb, hr, Option.some.injEq] at hrNew
    rw [← hrNew]
    exact hv
  | verify gid =>
    simp only [applyOpDb, mark_group_verified, List.getElem?_map, hr,
      Option.map_some', Option.some.injEq] at hrNew
    rw [← hrNew]
    by_cases h : (r.variant_group_id == gid) = true
    · rw [if_pos h]
    · rw [if_neg h]; exact hv
  | pairWrite g p =>
    simp only [applyOpDb, setPairId, applyAssign, List.getElem?_map, hr,
      Option.map_some', Option.some.injEq] at hrNew
    rw [← hrNew]
    by_cases h : pairMentions (g, p).2 r.question_id = true
    · rw [if_pos h]; exact hv
    · rw [if_neg h]; exact hv

/-- C7 witness: an activation toggle on a verified record leaves it
verified. -/
theorem claim_C7_witness :
    exToggledRec.verification_status = some VerifStatus.verified :=
  claim_C7_verification_monotonic (EngineOp.toggleStatus 2 "inactive")
    [exVerifiedRec] 0 exVerifiedRec exToggledRec
    (by decide) (by decide) (by decide)

/-- C9: the skip callback changes no persisted record (the table is
untouched); it only appends the current group id to the session skip
list, after which the selection can never return that group; a chapter
filter change resets the skip list. -/
theorem claim_C9_skip_non_mutation (s : SessionState) (gid : Nat)
    (hcur : s.current_group_id = some gid) (hgid : gid ≠ 0) :
    (skip_group_callback s).db = s.db ∧
    (skip_group_callback s).skipped_groups = s.skipped_groups ++ [gid] ∧
    (∀ chapterFilter,
      selectGroup s.db (skip_group_callback s).skipped_groups chapterFilter ≠
        some gid) ∧
    (∀ selected, selected ≠ s.selected_chapter →
      (chapter_filter_change s selected).skipped_groups = []) := by
  have hne : (gid == 0) = false := beq_eq_false_iff_ne.mpr hgid
  have hs : skip_group_callback s =
      { s with skipped_groups := s.skipped_groups ++ [gid],
               group_data := none, ai_result := none } := by
    unfold skip_group_callback
    rw [hcur]
    simp [hne]
  refine ⟨by rw [hs], by rw [hs], ?_, ?_⟩
  · intro chapterFilter hsel
    rw [hs] at hsel
    unfold selectGroup at hsel
    cases hfind : List.find? (recordEligible chapterFilter (s.skipped_groups ++ [gid])) s.db with
    | none => rw [hfind] at hsel; cases hsel
    | some r =>
      rw [hfind] at hsel
      have hgid2 : r.variant_group_id = gid := by simpa using hsel
      have hpred := List.find?_some hfind
      unfold recordEligible at hpred
      rw [Bool.and_eq_true, Bool.and_eq_true] at hpred
      have hskip := hpred.2
      rw [Bool.not_eq_true'] at hskip
      have hmem : r.variant_group_id ∈ s.skipped_groups ++ [gid] := by
        rw [hgid2]
        exact List.mem_append_right _ (List.mem_singleton.mpr rfl)
      have hc : (s.skipped_groups ++ [gid]).contains r.variant_group_id = true :=
        List.elem_iff.mpr hmem
      rw [hskip] at hc
      exact Bool.false_ne_true hc
  · intro selected hself
    have hne2 : (selected == s.selected_chapter) = false :=
      beq_eq_false_iff_ne.mpr hself
    unfold chapter_filter_change
    simp [hne2]

/-- C9 witness: the theorem evaluated on the concrete session reviewing
group 7. -/
theorem claim_C9_witness :
    (skip_group_callback exSession).db = exSession.db ∧
    (skip_group_callback exSession).skipped_groups =
      exSession.skipped_groups ++ [7] ∧
    selectGroup exSession.db (skip_group_callback exSession).skipped_groups
      "All Chapters" ≠ some 7 ∧
    (chapter_filter_change exSession "Ch2").skipped_groups = [] :=
  ⟨(claim_C9_skip_non_mutation exSession 7 rfl (by decide)).1,
   (claim_C9_skip_non_mutation exSession 7 rfl (by decide)).2.1,
   (claim_C9_skip_non_mutation exSession 7 rfl (by decide)).2.2.1 "All Chapters",
   (claim_C9_skip_non_mutation exSession 7 rfl (by decide)).2.2.2 "Ch2" (by decide)⟩

/-- C8: reconciliation injects feedback only for evaluations whose
question id belongs to the submitted cluster; evaluations with unknown
ids are ignored (without error, the loop is total); on the example of the
specification (cluster ids 1,2,3 and evaluations for 2,3,4) exactly the
evaluations for 2 and 3 are applied. -/
theorem claim_C8_evaluation_filtering (clusterIds : List Nat) (res : AuditResponse) :
    (∀ ev ∈ injectedFeedback clusterIds res,
      ev.question_id ∈ clusterIds ∧ ev ∈ res.evaluations) ∧
    (∀ ev ∈ res.evaluations, ev.question_id ∉ clusterIds →
      ev ∉ injectedFeedback clusterIds res) ∧
    injectedFeedback [1, 2, 3] exAuditRes = [exEval2, exEval3] := by
  refine ⟨?_, ?_, by decide⟩
  · intro ev hev
    unfold injectedFeedback at hev
    rw [List.mem_filter] at hev
    obtain ⟨hmem, hcond⟩ := hev
    rw [Bool.and_eq_true] at hcond
    exact ⟨List.elem_iff.mp hcond.2, hmem⟩
  · intro ev _ hnot hev
    unfold injectedFeedback at hev
    rw [List.mem_filter] at hev
    rw [Bool.and_eq_true] at hev
    exact hnot (List.elem_iff.mp hev.2.2)

/-- C8 witness: the theorem evaluated on the example of the
specification. -/
theorem claim_C8_witness :
    (exEval2.question_id ∈ [1, 2, 3] ∧ exEval2 ∈ exAuditRes.evaluations) ∧
    exEval4 ∉ injectedFeedback [1, 2, 3] exAuditRes :=
  ⟨(claim_C8_evaluation_filtering [1, 2, 3] exAuditRes).1 exEval2 (by decide),
   (claim_C8_evaluation_filtering [1, 2, 3] exAuditRes).2.1 exEval4
     (by decide) (by decide)⟩

/-- Helper: generated pairing ids are bounded below by the base counter. -/
theorem assignIds_fst_lb :
    ∀ (ps : List DetectedPair) (base : Nat) (gp : Nat × DetectedPair),
      gp ∈ assignIds base ps → base ≤ gp.1 := by
  intro ps
  induction ps with
  | nil => intro base gp h; cases h
  | cons p ps ih =>
    intro base gp h
    simp only [assignIds] at h
    cases h with
    | head => exact Nat.le_refl base
    | tail _ hmem => exact Nat.le_of_succ_le (ih (base + 1) gp hmem)

/-- Helper: the generated pairing-id list is duplicate-free. -/
theorem assignIds_fst_nodup :
    ∀ (ps : List DetectedPair) (base : Nat),
      ((assignIds base ps).map Prod.fst).Nodup := by
  intro ps
  induction ps with
  | nil => intro base; simp [assignIds]
  | cons p ps ih =>
    intro base
    simp only [assignIds, List.map_cons]
    refine List.Nodup.cons ?_ (ih (base + 1))
    intro hmem
    rw [List.mem_map] at hmem
    obtain ⟨gp, hgp, hfst⟩ := hmem
    have hlb : base + 1 ≤ gp.1 := assignIds_fst_lb ps (base + 1) gp hgp
    have hfst2 : gp.1 = base := hfst
    omega

/-- Helper: one generated pairing-id per accepted pair. -/
theorem assignIds_length :
    ∀ (ps : List DetectedPair) (base : Nat),
      ((assignIds base ps).map Prod.fst).length = ps.length := by
  intro ps
  induction ps with
  | nil => intro base; rfl
  | cons p ps ih =>
    intro base
    simp only [assignIds, List.map_cons, List.length_cons, ih]

/-- Helper: each assignment carries a pair of the input list. -/
theorem mem_assignIds_snd :
    ∀ (ps : List DetectedPair) (base : Nat) (gp : Nat × DetectedPair),
      gp ∈ assignIds base ps → gp.2 ∈ ps := by
  intro ps
  induction ps with
  | nil => intro base gp h; cases h
  | cons p ps ih =>
    intro base gp h
    simp only [assignIds] at h
    cases h with
    | head => exact List.mem_cons_self p ps
    | tail _ hmem => exact List.mem_cons_of_mem p (ih (base + 1) gp hmem)

/-- Helper: a pair naming q contributes q to the mentioned-id list. -/
theorem mentions_mem_mentionedIds :
    ∀ (ps : List DetectedPair) (p : DetectedPair) (q : Nat),
      p ∈ ps → pairMentions p q = true → q ∈ mentionedIds ps := by
  intro ps
  induction ps with
  | nil => intro p q h _; cases h
  | cons p0 ps ih =>
    intro p q hmem hment
    simp only [mentionedIds]
    cases hmem with
    | head =>
      simp only [pairMentions] at hment
      rcases (Bool.or_eq_true _ _).mp hment with h | h
      · rw [beq_iff_eq] at h
        rw [h]
        exact List.mem_cons_self _ _
      · rw [beq_iff_eq] at h
        rw [h]
        exact List.mem_cons_of_mem _ (List.mem_cons_self _ _)
    | tail _ hmem2 =>
      exact List.mem_cons_of_mem _ (List.mem_cons_of_mem _ (ih p q hmem2 hment))

/-- Helper: a record mentioned by no assignment is left unchanged. -/
theorem applyAssigns_id_of_no_mention :
    ∀ (assigns : List (Nat × DetectedPair)) (r : Record),
      (∀ gp ∈ assigns, pairMentions gp.2 r.question_id = false) →
      applyAssigns assigns r = r := by
  intro assigns
  induction assigns with
  | nil => intro r _; rfl
  | cons gp rest ih =>
    intro r h
    have h0 := h gp (List.mem_cons_self gp rest)
    have hstep : applyAssign gp r = r := by
      unfold applyAssign
      rw [h0]
      exact if_neg Bool.false_ne_true
    simp only [applyAssigns]
    rw [hstep]
    exact ih r (fun gp2 h2 => h gp2 (List.mem_cons_of_mem gp h2))

/-- Helper: the pairing writes never change a record identity. -/
theorem applyAssigns_question_id :
    ∀ (assigns : List (Nat × DetectedPair)) (r : Record),
      (applyAssigns assigns r).question_id = r.question_id := by
  intro assigns
  induction assigns with
  | nil => intro r; rfl
  | cons gp rest ih =>
    intro r
    simp only [applyAssigns]
    rw [ih]
    unfold applyAssign
    by_cases h : pairMentions gp.2 r.question_id = true
    · rw [if_pos h]
    · rw [if_neg h]

/-- Helper: with duplicate-free mentioned ids, the unique assignment
naming a record determines its final pairing id. -/
theorem applyAssigns_sets_pairing :
    ∀ (pairs : List DetectedPair) (base : Nat) (r : Record) (gp : Nat × DetectedPair),
      (mentionedIds pairs).Nodup →
      gp ∈ assignIds base pairs →
      pairMentions gp.2 r.question_id = true →
      (applyAssigns (assignIds base pairs) r).pairing_group_id = some gp.1 := by
  intro pairs
  induction pairs with
  | nil => intro base r gp _ h _; cases h
  | cons p0 ps ih =>
    intro base r gp hnodup hgp hment
    simp only [mentionedIds, List.nodup_cons] at hnodup
    obtain ⟨hd1, hd2, hd3⟩ := hnodup
    simp only [assignIds] at hgp
    simp only [assignIds, applyAssigns]
    cases hgp with
    | head =>
      have hstep : applyAssign (base, p0) r =
          { r with pairing_group_id := some base } := by
        unfold applyAssign
        rw [hment]
        exact if_pos rfl
      rw [hstep]
      have hnom : ∀ gp2 ∈ assignIds (base + 1) ps,
          pairMentions gp2.2
            ({ r with pairing_group_id := some base } : Record).question_id = false := by
        intro gp2 hgp2
        cases hc : pairMentions gp2.2
            ({ r with pairing_group_id := some base } : Record).question_id with
        | false => rfl
        | true =>
          exfalso
          have hp2 : gp2.2 ∈ ps := mem_assignIds_snd ps (base + 1) gp2 hgp2
          have hq : r.question_id ∈ mentionedIds ps :=
            mentions_mem_mentionedIds ps gp2.2 _ hp2 hc
          simp only [pairMentions] at hment
          rcases (Bool.or_eq_true _ _).mp hment with h | h
          · rw [beq_iff_eq] at h
            rw [h] at hq
            exact hd1 (List.mem_cons_of_mem _ hq)
          · rw [beq_iff_eq] at h
            rw [h] at hq
            exact hd2 hq
      rw [applyAssigns_id_of_no_mention (assignIds (base + 1) ps) _ hnom]
    | tail _ htail =>
      have hp : gp.2 ∈ ps := mem_assignIds_snd ps (base + 1) gp htail
      have hq : r.question_id ∈ mentionedIds ps :=
        mentions_mem_mentionedIds ps gp.2 r.question_id hp hment
      have hp0 : pairMentions p0 r.question_id = false := by
        cases hc : pairMentions p0 r.question_id with
        | false => rfl
        | true =>
          exfalso
          simp only [pairMentions] at hc
          rcases (Bool.or_eq_true _ _).mp hc with h | h
          · rw [beq_iff_eq] at h
            rw [h] at hq
            exact hd1 (List.mem_cons_of_mem _ hq)
          · rw [beq_iff_eq] at h
            rw [h] at hq
            exact hd2 hq
      have hstep : applyAssign (base, p0) r = r := by
        unfold applyAssign
        rw [hp0]
        exact if_neg Bool.false_ne_true
      rw [hstep]
      exact ih (base + 1) r gp hd3 htail hment

/-- C3 (modelled from the spec, the component being absent from the
source): for N accepted pairs the PairingResolver generates N
pairwise-distinct fresh pairing group ids and — when the pairs name
pairwise-distinct records, the invariant of the data model — each
generated id is set on both the named primary and backup records. -/
theorem claim_C3_pairing_fresh_ids (base : Nat) (pairs : List DetectedPair)
    (db : List Record) :
    ((assignIds base pairs).map Prod.fst).length = pairs.length ∧
    ((assignIds base pairs).map Prod.fst).Nodup ∧
    ((mentionedIds pairs).Nodup →
      ∀ gp ∈ assignIds base pairs, ∀ r ∈ pairingResolverApply base pairs db,
        pairMentions gp.2 r.question_id = true →
        r.pairing_group_id = some gp.1) := by
  refine ⟨assignIds_length pairs base, assignIds_fst_nodup pairs base, ?_⟩
  intro hnodup gp hgp r hr hment
  unfold pairingResolverApply at hr
  rw [List.mem_map] at hr
  obtain ⟨r0, _, hr0eq⟩ := hr
  subst hr0eq
  have hqid : (applyAssigns (assignIds base pairs) r0).question_id = r0.question_id :=
    applyAssigns_question_id (assignIds base pairs) r0
  rw [hqid] at hment
  exact applyAssigns_sets_pairing pairs base r0 gp hnodup hgp hment

/-- C3 witness: the theorem applied to the two concrete pairs over the
one-record table, yielding pairing id 100 on the record named by the
first pair. -/
theorem claim_C3_witness :
    exPairedRec.pairing_group_id = some 100 :=
  (claim_C3_pairing_fresh_ids 100 exPairs [exPendingRec]).2.2 (by decide)
    (100, { primary_id := 1, backup_id := 2 }) (by decide)
    exPairedRec (by decide) (by decide)

end QBank
